import Mathlib

/-!
Verification of the SnakeFlex terminal-server core (Go sources).

The definitions below are a shallow embedding of the Go code of the
repository: the outbound websocket channel (SafeWebSocketConn), the
authentication rate limiter (RateLimiter), the session store
(SessionManager), the execution bridge (executePythonScript,
executePtyScript, executePipeScript, handleIO) and the per-connection
message dispatch of websocketHandler.  Go time instants and durations
are embedded as integers counting nanoseconds, Go buffered channels as
lists bounded by the channel capacity, and goroutine effects as
explicit event lists or state-passing functions.
-/

namespace Snakeflex

/-- The structured message exchanged on the execution websocket
(Go struct Message: fields Type, Content, Input, File). -/
structure Message where
  type : String
  content : String
  input : String
  file : String
deriving DecidableEq, Repr

/-- The structured message of the shell websocket
(Go struct ShellMessage: Type, Data, Cols, Rows; the float64
dimensions are carried as integers here, their numeric semantics is
not needed). -/
structure ShellMessage where
  type : String
  data : String
  cols : Int
  rows : Int
deriving DecidableEq, Repr

/-- A message of type "error" with the given content. -/
def errorMsg (c : String) : Message := ⟨"error", c, "", ""⟩

/-- A message of type "completed" with the given content. -/
def completedMsg (c : String) : Message := ⟨"completed", c, "", ""⟩

/-- The "pong" reply sent by the read loop on a client "ping". -/
def pongMsg : Message := ⟨"pong", "", "", ""⟩

/-! ### Time units (Go time.Duration, in nanoseconds) -/

def second : Int := 1000000000

def minute : Int := 60 * second

def hour : Int := 60 * minute

/-! ### OutboundChannel: SafeWebSocketConn

`NewSafeWebSocketConn` creates `msgChan` as a buffered channel of
capacity 100.  `SendMessage` performs a select with a default branch:
if the buffer has room the message is enqueued, otherwise it is
dropped (and the drop logged).  The embedding represents the buffered
channel contents as a list in arrival order. -/

def msgChanCap : Nat := 100

/-- SafeWebSocketConn.SendMessage: non-blocking enqueue; drops the
message when the buffer already holds `msgChanCap` messages. -/
def SendMessage (queue : List Message) (msg : Message) : List Message :=
  if queue.length < msgChanCap then queue ++ [msg] else queue

/-- The delivery loop `messageSender` repeatedly receives from
`msgChan` and writes each message onto the websocket.  Applied to the
queued messages it produces the sequence of writes, front first. -/
def messageSender (queue : List Message) : List Message :=
  queue.foldl (fun delivered m => delivered ++ [m]) []

/-- State of one SafeWebSocketConn: whether the `done` channel has
been closed, whether the underlying websocket has been closed, and
whether the delivery goroutine is still running. -/
structure SafeConnState where
  doneClosed : Bool
  connClosed : Bool
  senderRunning : Bool
deriving DecidableEq, Repr

/-- The result of running a Go statement that may panic. -/
inductive GoResult (α : Type) where
  | ok (val : α)
  | panicked (reason : String)
deriving DecidableEq, Repr

/-- SafeWebSocketConn.Close executes `close(s.done)` followed by
`s.conn.Close()`.  Closing an already-closed Go channel is a run-time
panic; a successful close makes the `messageSender` select take the
`done` branch and return, stopping the delivery goroutine. -/
def Close (s : SafeConnState) : GoResult SafeConnState :=
  if s.doneClosed then GoResult.panicked "close of closed channel"
  else GoResult.ok ⟨true, true, false⟩

/-! ### RateLimiter -/

/-- One entry of the RateLimiter map (Go struct AttemptRecord). -/
structure AttemptRecord where
  Count : Nat
  LastAttempt : Int
  LockedUntil : Int
deriving DecidableEq, Repr

/-- The progressive lockout switch of RecordFailedAttempt as a
function of the post-increment count (0 meaning no lockout). -/
def lockDuration (count : Nat) : Int :=
  if count ≥ 10 then hour
  else if count ≥ 6 then 10 * minute
  else if count ≥ 3 then minute
  else 0

/-- RateLimiter.RecordFailedAttempt for one identity: takes the
current entry (none when the map has no record for this client) and
the current time, returns the updated entry together with the pair
the Go function returns (whether a lockout now applies, and its
duration).  A missing entry starts as the zero record; the count is
reset when the gap since the last attempt exceeds 15 minutes; the
lockout expiry is only written when the new count reaches 3. -/
def RecordFailedAttempt (record : Option AttemptRecord) (now : Int) :
    AttemptRecord × Bool × Int :=
  let r := record.getD ⟨0, 0, 0⟩
  let count1 : Nat := if now - r.LastAttempt > 15 * minute then 1 else r.Count + 1
  if count1 ≥ 10 then (⟨count1, now, now + hour⟩, true, hour)
  else if count1 ≥ 6 then (⟨count1, now, now + 10 * minute⟩, true, 10 * minute)
  else if count1 ≥ 3 then (⟨count1, now, now + minute⟩, true, minute)
  else (⟨count1, now, r.LockedUntil⟩, false, 0)

/-- RateLimiter.IsBlocked for one identity: a read-only lookup; the
client is blocked exactly when the current time is before the stored
lockout expiry, and the remaining duration is then returned. -/
def IsBlocked (record : Option AttemptRecord) (now : Int) : Bool × Int :=
  match record with
  | none => (false, 0)
  | some r => if now < r.LockedUntil then (true, r.LockedUntil - now) else (false, 0)

/-- Folding RecordFailedAttempt over a list of attempt times,
starting from no record, and keeping the resulting entry. -/
def afterFailures (times : List Int) : Option AttemptRecord :=
  times.foldl (fun rec t => some ((RecordFailedAttempt rec t).1)) none

/-! ### SessionManager

The Go map `sessions map[string]time.Time` is embedded as an
association list searched front first; insertion prepends, deletion
removes the key. -/

abbrev SessionMap := List (String × Int)

/-- Lookup of a token in the session map (first match wins, matching
the single-binding discipline of a Go map). -/
def sessionLookup : SessionMap → String → Option Int
  | [], _ => none
  | p :: rest, token =>
      if p.1 = token then some p.2 else sessionLookup rest token

/-- Go `delete(sm.sessions, token)`. -/
def sessionsErase : SessionMap → String → SessionMap
  | [], _ => []
  | p :: rest, token =>
      if p.1 = token then sessionsErase rest token
      else p :: sessionsErase rest token

/-- SessionManager.CreateSession: stores the freshly generated token
with expiry `now + 24h`.  The 32-byte random token itself is external
randomness and is passed in as a parameter. -/
def CreateSession (sessions : SessionMap) (token : String) (now : Int) : SessionMap :=
  (token, now + 24 * hour) :: sessions

/-- SessionManager.ValidateSession: absent token is invalid; a token
whose expiry lies strictly in the past is deleted (lazy deletion) and
reported invalid; otherwise valid.  Returns the verdict together with
the updated map. -/
def ValidateSession (sessions : SessionMap) (token : String) (now : Int) :
    Bool × SessionMap :=
  match sessionLookup sessions token with
  | none => (false, sessions)
  | some expiry =>
      if now > expiry then (false, sessionsErase sessions token)
      else (true, sessions)

/-- SessionManager.CleanupExpiredSessions: the periodic sweep keeps
exactly the entries whose expiry has not strictly passed. -/
def CleanupExpiredSessions : SessionMap → Int → SessionMap
  | [], _ => []
  | p :: rest, now =>
      if now > p.2 then CleanupExpiredSessions rest now
      else p :: CleanupExpiredSessions rest now

/-- Effect of the logout handler on the session store.  The Go
logoutHandler only overwrites the client cookie with an expired empty
one and redirects to the login page; it performs no operation on the
SessionManager, so the store is unchanged. -/
def logoutSessionStoreEffect (sessions : SessionMap) : SessionMap := sessions

/-! ### Path resolution (validateAndResolvePath)

Absolute paths are modelled as the list of their components; the
working directory is the cleaned absolute path returned by os.Getwd.
`filepath.Join(dir, rel)` is `Clean(dir + "/" + rel)`, whose lexical
cleaning drops "." components, lets ".." pop the previous component
(staying at the root when there is none), and drops empty
components. -/

/-- Splitting a character list at the slash separators
(strings.Split on "/"). -/
def splitComps : List Char → List Char → List String
  | [], cur => [String.mk cur.reverse]
  | c :: rest, cur =>
      if c = '/' then String.mk cur.reverse :: splitComps rest []
      else splitComps rest (c :: cur)

/-- Go strings.HasPrefix: whether `pre` is a leading substring
of `s`. -/
def stringStartsWith (s pre : String) : Bool :=
  pre.data.isPrefixOf s.data

/-- Split a slash-separated path into its non-empty components. -/
def splitPath (s : String) : List String :=
  (splitComps s.data []).filter (fun c => c ≠ "")

/-- The component cleaning performed by filepath.Clean on a rooted
path. -/
def cleanComponents (comps : List String) : List String :=
  comps.foldl
    (fun out c =>
      if c = "." then out
      else if c = ".." then out.dropLast
      else out ++ [c])
    []

/-- Render components back to an absolute path string. -/
def renderAbs (comps : List String) : String :=
  "/" ++ String.intercalate "/" comps

/-- filepath.Join of an absolute working directory and a relative
path, followed by filepath.Abs (the identity on an absolute path up
to Clean). -/
def joinAbs (workingDir : List String) (rel : String) : String :=
  renderAbs (cleanComponents (workingDir ++ splitPath rel))

/-- TerminalServer.validateAndResolvePath: an empty relative path
resolves to the working directory itself; otherwise the joined
absolute path must have the working directory as a string prefix,
else the access-denied error is returned. -/
def validateAndResolvePath (workingDir : List String) (relativePath : String) :
    Except String String :=
  if relativePath = "" then Except.ok (renderAbs workingDir)
  else
    let absPath := joinAbs workingDir relativePath
    let absWorkingDir := renderAbs workingDir
    if stringStartsWith absPath absWorkingDir then Except.ok absPath
    else Except.error "access denied: path outside working directory"

/-! ### Execution bridge: executePythonScript and its two spawn paths -/

/-- Outcome of attempting to start the child process (exec.Cmd.Start
or pty.Start), which is external OS behaviour. -/
inductive SpawnResult where
  | started
  | failed (errText : String)
deriving DecidableEq, Repr

/-- What the start path of the execution bridge did: the messages it
sent on the outbound channel, whether it closed the input channel
before returning, whether a process was spawned, and whether handleIO
(the four forwarding goroutines, among them the only reader of the
input channel) was entered. -/
structure ExecOutcome where
  sent : List Message
  inputClosed : Bool
  processSpawned : Bool
  ranForwarding : Bool
deriving DecidableEq, Repr

/-- executePtyScript: on a pty.Start failure it sends one error
message and returns without closing the input channel; on success
handleIO takes over. -/
def executePtyScript (spawn : SpawnResult) : ExecOutcome :=
  match spawn with
  | SpawnResult.failed e =>
      ⟨[errorMsg ("Failed to start PTY: " ++ e)], false, false, false⟩
  | SpawnResult.started => ⟨[], false, true, true⟩

/-- executePipeScript: on a cmd.Start failure it sends one error
message and returns without closing the input channel; on success
handleIO takes over. -/
def executePipeScript (spawn : SpawnResult) : ExecOutcome :=
  match spawn with
  | SpawnResult.failed e =>
      ⟨[errorMsg ("Failed to start command: " ++ e)], false, false, false⟩
  | SpawnResult.started => ⟨[], false, true, true⟩

/-- executePythonScript: the validation phase.  An empty file name, a
path failing validateAndResolvePath, and a resolved path that does
not exist each send one error message, close the input channel and
return without spawning; a valid target is handed to the pty or pipe
spawn path (chosen by the platform).  The set of existing files and
the spawn outcome are the external OS state, passed as parameters. -/
def executePythonScript (workingDir : List String) (existingFiles : List String)
    (usePty : Bool) (spawn : SpawnResult) (pythonFile : String) : ExecOutcome :=
  if pythonFile = "" then
    ⟨[errorMsg "No Python file specified for execution."], true, false, false⟩
  else
    match validateAndResolvePath workingDir pythonFile with
    | Except.error e =>
        ⟨[errorMsg ("Invalid file path: " ++ e)], true, false, false⟩
    | Except.ok absPath =>
        if absPath ∈ existingFiles then
          if usePty then executePtyScript spawn else executePipeScript spawn
        else ⟨[errorMsg ("File not found: " ++ pythonFile)], true, false, false⟩

/-! ### handleIO: the exit-supervision goroutine -/

/-- Result of cmd.Wait: a nil error (clean exit), an exec.ExitError
carrying the value of its ExitCode() method, or any other error. -/
inductive WaitResult where
  | clean
  | exitError (code : Int)
  | otherError
deriving DecidableEq, Repr

/-- The exit code computed by the exit-supervision goroutine of
handleIO from the cmd.Wait result. -/
def waitExitCode : WaitResult → Int
  | WaitResult.clean => 0
  | WaitResult.exitError code => code
  | WaitResult.otherError => -1

/-- Observable actions of the exit-supervision goroutine. -/
inductive IOEvent where
  | sendToClient (m : Message)
  | closeInputChan
deriving DecidableEq, Repr

/-- The exit-supervision goroutine of handleIO in program order: the
body waits for the process, sends the single "completed" message, and
only then do its deferred statements run, the innermost of which is
`close(inputChan)` (registered after `wg.Done`, hence executed before
it). -/
def exitSupervisor (res : WaitResult) : List IOEvent :=
  [IOEvent.sendToClient (completedMsg ("Exit code: " ++ toString (waitExitCode res))),
   IOEvent.closeInputChan]

/-- Whether an event is the send of a "completed" message. -/
def isCompletedSend : IOEvent → Bool
  | IOEvent.sendToClient m => m.type == "completed"
  | IOEvent.closeInputChan => false

/-! ### websocketHandler: the per-connection read loop

`currentInputChan` starts as the nil channel and is replaced by a
fresh buffered channel of capacity 10 on every "execute".  An "input"
message is forwarded into the current channel by a select with a
default branch that drops the input when the buffer is full; with a
nil current channel nothing at all happens. -/

def inputChanCap : Nat := 10

/-- Per-connection state of the read loop of websocketHandler: the
current input channel (none embeds the nil channel, some q the
buffered contents), the messages the loop itself sent to the client,
and the files for which an executePythonScript goroutine was
launched. -/
structure HandlerState where
  currentInputChan : Option (List String)
  clientSent : List Message
  executionsStarted : List String
deriving DecidableEq, Repr

/-- One iteration of the websocketHandler switch on a decoded
message: "ping" replies with a pong, "pong" does nothing, "execute"
swaps in a fresh empty input channel and launches the execution
goroutine, "input" forwards the newline-terminated input into the
current channel unless it is nil or full, and any other type is
ignored. -/
def handleClientMessage (st : HandlerState) (msg : Message) : HandlerState :=
  if msg.type = "ping" then
    ⟨st.currentInputChan, st.clientSent ++ [pongMsg], st.executionsStarted⟩
  else if msg.type = "pong" then st
  else if msg.type = "execute" then
    ⟨some [], st.clientSent, st.executionsStarted ++ [msg.file]⟩
  else if msg.type = "input" then
    match st.currentInputChan with
    | none => st
    | some q =>
        if q.length < inputChanCap then
          ⟨some (q ++ [msg.input ++ "\n"]), st.clientSent, st.executionsStarted⟩
        else ⟨some q, st.clientSent, st.executionsStarted⟩
  else st

/-- Loop-control outcome of one read-loop iteration. -/
inductive LoopOutcome where
  | continueLoop
  | breakLoop
deriving DecidableEq, Repr

/-- Loop control of the execution-session read loop as a function of
the ReadJSON result (none embeds a returned error, in particular an
undecodable message): any error breaks the loop, every decoded
message lets it continue. -/
def execSessionReadStep (decoded : Option Message) : LoopOutcome :=
  match decoded with
  | none => LoopOutcome.breakLoop
  | some _ => LoopOutcome.continueLoop

/-- Loop control of the shell-session read loop as a function of the
json.Unmarshal result of a frame already read from the socket: a
failed unmarshal skips the frame and the loop continues, as does
every decoded message. -/
def shellSessionDecodeStep (decoded : Option ShellMessage) : LoopOutcome :=
  match decoded with
  | none => LoopOutcome.continueLoop
  | some _ => LoopOutcome.continueLoop

/-! ### The input pipeline as a trace system

Interleavings of the read loop enqueueing "input" payloads and the
input-forwarding goroutine of handleIO draining them are modelled as
action traces over the channel contents. -/

/-- An action on the input channel: the read loop handling one client
"input" message, or the forwarding goroutine receiving one string and
writing it to the process stdin. -/
inductive InputAction where
  | clientInput (s : String)
  | processRead
deriving DecidableEq, Repr

/-- State of the input pipeline: the buffered channel contents, the
strings written to the process stdin in order, and the raw inputs
accepted into respectively dropped by the select of the read loop. -/
structure InputSystem where
  queue : List String
  written : List String
  accepted : List String
  dropped : List String
deriving DecidableEq, Repr

/-- One step of the input pipeline, from the source: a client input
is appended newline-terminated when the channel has room and dropped
by the select default branch otherwise; the forwarding goroutine
takes the front of the channel and writes it to stdin. -/
def inputStep (st : InputSystem) (act : InputAction) : InputSystem :=
  match act with
  | InputAction.clientInput s =>
      if st.queue.length < inputChanCap then
        ⟨st.queue ++ [s ++ "\n"], st.written, st.accepted ++ [s], st.dropped⟩
      else
        ⟨st.queue, st.written, st.accepted, st.dropped ++ [s]⟩
  | InputAction.processRead =>
      match st.queue with
      | [] => st
      | x :: rest => ⟨rest, st.written ++ [x], st.accepted, st.dropped⟩

/-- The initial input-pipeline state right after "execute" created a
fresh channel. -/
def initInput : InputSystem := ⟨[], [], [], []⟩

/-- Run a trace of input-pipeline actions from the initial state. -/
def runInput (acts : List InputAction) : InputSystem :=
  acts.foldl inputStep initInput

/-- Invariant of the input pipeline: what was written to stdin
followed by what is still buffered is exactly the accepted inputs,
newline-terminated, in order, and the buffer respects its capacity. -/
def InputInv (st : InputSystem) : Prop :=
  st.written ++ st.queue = st.accepted.map (fun s => s ++ "\n") ∧
  st.queue.length ≤ inputChanCap

/-- An invalid execution target in the sense of executePythonScript:
an empty file name, a path rejected by validateAndResolvePath, or a
resolved path that does not exist. -/
def invalidTarget (workingDir files : List String) (file : String) : Prop :=
  file = "" ∨
  (∃ e, validateAndResolvePath workingDir file = Except.error e) ∨
  (∃ p, validateAndResolvePath workingDir file = Except.ok p ∧ p ∉ files)

/-! ## Helper lemmas -/

theorem foldl_snoc_eq (l acc : List Snakeflex.Message) :
    l.foldl (fun delivered m => delivered ++ [m]) acc = acc ++ l := by
  induction l generalizing acc with
  | nil => simp
  | cons x xs ih => simp [List.foldl_cons, ih]

theorem messageSender_eq (queue : List Message) : messageSender queue = queue := by
  simp [messageSender, foldl_snoc_eq]

theorem inputStep_inv (st : InputSystem) (a : InputAction) (h : InputInv st) :
    InputInv (inputStep st a) := by
  obtain ⟨h1, h2⟩ := h
  cases a with
  | clientInput s =>
    by_cases hlen : st.queue.length < inputChanCap
    · refine ⟨?_, ?_⟩
      · simp [inputStep, hlen, ← List.append_assoc, h1]
      · simp [inputStep, hlen]
        omega
    · exact ⟨by simpa [inputStep, hlen] using h1, by simpa [inputStep, hlen] using h2⟩
  | processRead =>
    cases hq : st.queue with
    | nil => simpa [inputStep, hq] using ⟨h1, h2⟩
    | cons x rest =>
      refine ⟨?_, ?_⟩
      · simp only [inputStep, hq]
        rw [← h1, hq]
        simp
      · simp only [inputStep, hq]
        rw [hq] at h2
        simp at h2 ⊢
        omega

theorem runInput_inv (acts : List InputAction) : InputInv (runInput acts) := by
  have general : ∀ (l : List InputAction) (st : InputSystem),
      InputInv st → InputInv (l.foldl inputStep st) := by
    intro l
    induction l with
    | nil => intro st h; simpa using h
    | cons a rest ih =>
      intro st h
      exact ih (inputStep st a) (inputStep_inv st a h)
  exact general acts initInput ⟨rfl, by simp [initInput, inputChanCap]⟩

theorem sessionLookup_erase (m : SessionMap) (token : String) :
    sessionLookup (sessionsErase m token) token = none := by
  induction m with
  | nil => rfl
  | cons p rest ih =>
    by_cases hp : p.1 = token
    · simpa [sessionsErase, hp] using ih
    · simp [sessionsErase, hp, sessionLookup, ih]

/-! ## Claim theorems -/

/-- Claim C2: for every started execution, the exit-supervision task
of handleIO emits exactly one "completed" message whose content is
"Exit code: N", with N computed as 0 on a clean exit, the
exec.ExitError exit code on a reported exit, and -1 for wait errors
carrying no exit code, and this message is emitted strictly before
the input channel is closed. -/
theorem C2_exit_supervision (res : WaitResult) :
    (exitSupervisor res).filter (fun e => isCompletedSend e) =
      [IOEvent.sendToClient
        (completedMsg ("Exit code: " ++ toString (waitExitCode res)))] ∧
    waitExitCode WaitResult.clean = 0 ∧
    (∀ c : Int, waitExitCode (WaitResult.exitError c) = c) ∧
    waitExitCode WaitResult.otherError = -1 ∧
    (∃ i j : Nat, i < j ∧
      (exitSupervisor res)[i]? =
        some (IOEvent.sendToClient
          (completedMsg ("Exit code: " ++ toString (waitExitCode res)))) ∧
      (exitSupervisor res)[j]? = some IOEvent.closeInputChan) :=
  ⟨rfl, rfl, fun _ => rfl, rfl, 0, 1, Nat.zero_lt_one, rfl, rfl⟩

/-- Claim C6 (confirmed): SendMessage never blocks: below the
capacity of 100 the message is appended, at capacity the queue is
unchanged and the dropped message is absent from the delivered
sequence; the delivery task drains the queue in enqueue order. -/
theorem C6_outbound_send (queue : List Message) (msg : Message) :
    (queue.length < msgChanCap → SendMessage queue msg = queue ++ [msg]) ∧
    (¬ queue.length < msgChanCap →
      SendMessage queue msg = queue ∧
      (msg ∉ queue → msg ∉ messageSender (SendMessage queue msg))) ∧
    messageSender queue = queue := by
  refine ⟨fun h => by simp [SendMessage, h], fun h => ⟨by simp [SendMessage, h], ?_⟩,
    messageSender_eq queue⟩
  intro hmem
  simpa [SendMessage, h, messageSender_eq] using hmem

/-- Witness for C6 at a queue already holding 100 messages: the send
returns with the queue unchanged and the pong message is never
delivered. -/
theorem C6_outbound_send_witness :
    SendMessage (List.replicate msgChanCap (errorMsg "x")) pongMsg =
      List.replicate msgChanCap (errorMsg "x") ∧
    pongMsg ∉ messageSender
      (SendMessage (List.replicate msgChanCap (errorMsg "x")) pongMsg) := by
  have h := (C6_outbound_send (List.replicate msgChanCap (errorMsg "x")) pongMsg).2.1
    (by decide)
  exact ⟨h.1, h.2 (by decide)⟩

/-- Claim C7, counterexample: on the execution session a ReadJSON
failure — in particular an undecodable client message — makes the
read loop break, not continue, contradicting the claim that the loop
continues past a malformed message. -/
theorem C7_counterexample :
    execSessionReadStep none = LoopOutcome.breakLoop ∧
    execSessionReadStep none ≠ LoopOutcome.continueLoop := by
  exact ⟨rfl, by decide⟩

/-- Claim C7 (amended): on the execution session an undecodable
message terminates the read loop (and with it the connection), while
every decoded message lets the loop continue; it is the shell session
whose read loop skips a frame that fails to unmarshal and continues
with the next message. -/
theorem C7_read_loop :
    execSessionReadStep none = LoopOutcome.breakLoop ∧
    (∀ m : Message, execSessionReadStep (some m) = LoopOutcome.continueLoop) ∧
    shellSessionDecodeStep none = LoopOutcome.continueLoop :=
  ⟨rfl, fun _ => rfl, rfl⟩

/-- Claim C8, counterexample: Close on an already-closed
SafeWebSocketConn panics (Go close of a closed channel), so a second
close does fail, contradicting idempotence. -/
theorem C8_counterexample :
    Close ⟨false, false, true⟩ = GoResult.ok ⟨true, true, false⟩ ∧
    Close ⟨true, true, false⟩ = GoResult.panicked "close of closed channel" ∧
    Close ⟨true, true, false⟩ ≠ GoResult.ok ⟨true, true, false⟩ := by
  exact ⟨rfl, rfl, by decide⟩

/-- Claim C8 (amended): a single Close on an open connection stops
the delivery task and closes the websocket, but Close is not
idempotent: a second Close on an already-closed connection panics. -/
theorem C8_close (s : SafeConnState) :
    (s.doneClosed = false → Close s = GoResult.ok ⟨true, true, false⟩) ∧
    (s.doneClosed = true →
      Close s = GoResult.panicked "close of closed channel") := by
  refine ⟨fun h => ?_, fun h => ?_⟩ <;> simp [Close, h]

/-- Witness for C8 at the freshly created connection state. -/
theorem C8_close_witness :
    Close ⟨false, false, true⟩ = GoResult.ok ⟨true, true, false⟩ :=
  (C8_close ⟨false, false, true⟩).1 rfl

/-- Claim C9 (confirmed): an "input" message arriving while the
current input channel is still nil (no "execute" has run) changes
nothing: the nil reference is kept, nothing is forwarded, no
execution is started and no reply is sent. -/
theorem C9_input_before_execute (st : HandlerState) (msg : Message)
    (hchan : st.currentInputChan = none) (htype : msg.type = "input") :
    handleClientMessage st msg = st := by
  simp [handleClientMessage, htype, hchan]

/-- Witness for C9 at the initial handler state. -/
theorem C9_input_before_execute_witness :
    handleClientMessage ⟨none, [], []⟩ ⟨"input", "", "42", ""⟩ = ⟨none, [], []⟩ :=
  C9_input_before_execute ⟨none, [], []⟩ ⟨"input", "", "42", ""⟩ rfl rfl

/-- Claim C1, counterexample: eleven "input" messages arriving before
the forwarding goroutine performs any read exceed the channel
capacity of 10, and the eleventh is dropped by the select default
branch of the read loop — the process can receive at most ten of the
eleven strings, so not every input reaches the process and drops do
occur. -/
theorem C1_counterexample :
    (runInput (List.replicate 11 (InputAction.clientInput "x"))).dropped = ["x"] ∧
    ((runInput (List.replicate 11 (InputAction.clientInput "x"))).written ++
        (runInput (List.replicate 11 (InputAction.clientInput "x"))).queue).length
      = 10 := by
  exact ⟨by decide, by decide⟩

/-- Claim C1 (amended): inputs accepted by the read loop are enqueued
with a trailing newline and reach the process stdin in order — at
every point, what was written followed by what is still buffered is
exactly the accepted inputs, newline-terminated, in order — and an
"input" message finding the channel below its capacity of 10 is
always accepted; but an "input" message finding the channel full is
dropped by the select default branch rather than suspending, so
sends beyond the capacity are lost unless the forwarder has drained
in between. -/
theorem C1_input_forwarding (acts : List InputAction) :
    (runInput acts).written ++ (runInput acts).queue =
      (runInput acts).accepted.map (fun s => s ++ "\n") ∧
    (runInput acts).queue.length ≤ inputChanCap ∧
    (∀ (st : InputSystem) (s : String), st.queue.length < inputChanCap →
      inputStep st (InputAction.clientInput s) =
        ⟨st.queue ++ [s ++ "\n"], st.written, st.accepted ++ [s], st.dropped⟩) ∧
    (∀ (st : InputSystem) (s : String), ¬ st.queue.length < inputChanCap →
      inputStep st (InputAction.clientInput s) =
        ⟨st.queue, st.written, st.accepted, st.dropped ++ [s]⟩) := by
  obtain ⟨h1, h2⟩ := runInput_inv acts
  refine ⟨h1, h2, fun st s h => by simp [inputStep, h], fun st s h => by simp [inputStep, h]⟩

/-- Witness for C1 at the state right after "execute": the first
input is accepted and newline-terminated. -/
theorem C1_input_forwarding_witness :
    inputStep ⟨[], [], [], []⟩ (InputAction.clientInput "a") =
      ⟨["a\n"], [], ["a"], []⟩ :=
  (C1_input_forwarding []).2.2.1 ⟨[], [], [], []⟩ "a" (by decide)

/-- Claim C5 (confirmed): every invalid execution target — empty file
name, path rejected by validateAndResolvePath, or missing file —
makes executePythonScript send exactly one "error" message, zero
"completed" messages, spawn no process and never enter handleIO. -/
theorem C5_invalid_start (wd files : List String) (usePty : Bool)
    (spawn : SpawnResult) (file : String) (h : invalidTarget wd files file) :
    (∃ c, (executePythonScript wd files usePty spawn file).sent = [errorMsg c]) ∧
    (executePythonScript wd files usePty spawn file).sent.filter
        (fun m => m.type == "completed") = [] ∧
    (executePythonScript wd files usePty spawn file).processSpawned = false ∧
    (executePythonScript wd files usePty spawn file).ranForwarding = false := by
  have main : ∃ c, executePythonScript wd files usePty spawn file =
      ⟨[errorMsg c], true, false, false⟩ := by
    rcases h with hf | ⟨e, he⟩ | ⟨p, hp, hnp⟩
    · exact ⟨"No Python file specified for execution.", by simp [executePythonScript, hf]⟩
    · by_cases hf : file = ""
      · rw [hf] at he
        simp [validateAndResolvePath] at he
      · exact ⟨"Invalid file path: " ++ e, by simp [executePythonScript, hf, he]⟩
    · by_cases hf : file = ""
      · exact ⟨"No Python file specified for execution.", by simp [executePythonScript, hf]⟩
      · exact ⟨"File not found: " ++ file, by simp [executePythonScript, hf, hp, hnp]⟩
  obtain ⟨c, hc⟩ := main
  refine ⟨⟨c, by rw [hc]⟩, ?_, by rw [hc], by rw [hc]⟩
  rw [hc]
  simp [errorMsg]

/-- Witness for C5 on the path-escape target "../etc/passwd" under
working directory /home/user. -/
theorem C5_invalid_start_witness :
    (executePythonScript ["home", "user"] [] true SpawnResult.started
        "../etc/passwd").processSpawned = false ∧
    (executePythonScript ["home", "user"] [] true SpawnResult.started
        "../etc/passwd").sent.filter (fun m => m.type == "completed") = [] := by
  have h := C5_invalid_start ["home", "user"] [] true SpawnResult.started "../etc/passwd"
    (Or.inr (Or.inl ⟨"access denied: path outside working directory", by rfl⟩))
  exact ⟨h.2.2.1, h.2.1⟩

/-- Claim C10 (confirmed): when the spawn itself fails after a valid
target passed validation, the bridge sends the single error message
but does not close the input channel and handleIO — the only reader
of that channel — never runs, so the channel stays open and anything
forwarded into it is never consumed; by contrast all three validation
failure paths close the channel before returning. -/
theorem C10_spawn_failure (wd files : List String) (usePty : Bool)
    (e : String) (file absPath : String) (spawn : SpawnResult) :
    (file ≠ "" → validateAndResolvePath wd file = Except.ok absPath →
      absPath ∈ files →
      executePythonScript wd files usePty (SpawnResult.failed e) file =
        ⟨[errorMsg ((if usePty then "Failed to start PTY: "
            else "Failed to start command: ") ++ e)], false, false, false⟩) ∧
    (executePythonScript wd files usePty spawn "").inputClosed = true ∧
    (∀ err, validateAndResolvePath wd file = Except.error err →
      (executePythonScript wd files usePty spawn file).inputClosed = true) ∧
    (validateAndResolvePath wd file = Except.ok absPath → absPath ∉ files →
      (executePythonScript wd files usePty spawn file).inputClosed = true) := by
  refine ⟨fun hf hv hin => ?_, by simp [executePythonScript], fun err herr => ?_, fun hv hnp => ?_⟩
  · by_cases u : usePty <;>
      simp [executePythonScript, hf, hv, hin, u, executePtyScript, executePipeScript]
  · by_cases hf : file = ""
    · rw [hf] at herr
      simp [validateAndResolvePath] at herr
    · simp [executePythonScript, hf, herr]
  · by_cases hf : file = ""
    · simp [executePythonScript, hf]
    · simp [executePythonScript, hf, hv, hnp]

/-- Witness for C10: a pty spawn failure on the valid existing target
a.py leaves the input channel open and handleIO never entered. -/
theorem C10_spawn_failure_witness :
    executePythonScript ["home", "user"] ["/home/user/a.py"] true
        (SpawnResult.failed "boom") "a.py" =
      ⟨[errorMsg "Failed to start PTY: boom"], false, false, false⟩ := by
  have h := (C10_spawn_failure ["home", "user"] ["/home/user/a.py"] true "boom"
      "a.py" "/home/user/a.py" SpawnResult.started).1 (by decide) (by rfl) (by decide)
  simpa using h


theorem recordFailed_none (now : Int) :
    RecordFailedAttempt none now = (⟨1, now, 0⟩, false, 0) := by
  unfold RecordFailedAttempt
  dsimp only
  split <;> norm_num

theorem recordFailed_small (r : AttemptRecord) (now : Int)
    (hgap : now - r.LastAttempt ≤ 15 * minute) (hc : r.Count + 1 < 3) :
    RecordFailedAttempt (some r) now = (⟨r.Count + 1, now, r.LockedUntil⟩, false, 0) := by
  unfold RecordFailedAttempt
  dsimp only [Option.getD]
  have hcount : (if now - r.LastAttempt > 15 * minute then (1 : Nat) else r.Count + 1)
      = r.Count + 1 := if_neg (by omega)
  rw [hcount, if_neg (by omega), if_neg (by omega), if_neg (by omega)]

theorem recordFailed_third (r : AttemptRecord) (now : Int)
    (hgap : now - r.LastAttempt ≤ 15 * minute) (hc : r.Count + 1 = 3) :
    RecordFailedAttempt (some r) now = (⟨3, now, now + minute⟩, true, minute) := by
  unfold RecordFailedAttempt
  dsimp only [Option.getD]
  have hcount : (if now - r.LastAttempt > 15 * minute then (1 : Nat) else r.Count + 1)
      = r.Count + 1 := if_neg (by omega)
  rw [hcount, if_neg (by omega), if_neg (by omega), if_pos (by omega), hc]

theorem recordFailed_reset (r : AttemptRecord) (now : Int)
    (h : now - r.LastAttempt > 15 * minute) :
    ((RecordFailedAttempt (some r) now).1).Count = 1 := by
  unfold RecordFailedAttempt
  dsimp only [Option.getD]
  have hcount : (if now - r.LastAttempt > 15 * minute then (1 : Nat) else r.Count + 1)
      = 1 := if_pos h
  rw [hcount]
  norm_num

theorem recordFailed_lock (record : Option AttemptRecord) (now : Int) :
    (RecordFailedAttempt record now).2.2 =
      lockDuration ((RecordFailedAttempt record now).1).Count ∧
    (3 ≤ ((RecordFailedAttempt record now).1).Count →
      (RecordFailedAttempt record now).2.1 = true ∧
      ((RecordFailedAttempt record now).1).LockedUntil =
        now + lockDuration ((RecordFailedAttempt record now).1).Count) ∧
    (((RecordFailedAttempt record now).1).Count < 3 →
      (RecordFailedAttempt record now).2.1 = false ∧
      ((RecordFailedAttempt record now).1).LockedUntil =
        (record.getD ⟨0, 0, 0⟩).LockedUntil) := by
  unfold RecordFailedAttempt
  dsimp only
  set r := record.getD ⟨0, 0, 0⟩ with hr
  set c : Nat := (if now - r.LastAttempt > 15 * minute then 1 else r.Count + 1) with hc
  by_cases h10 : c ≥ 10
  · rw [if_pos h10]
    simp [lockDuration, h10]
    omega
  · rw [if_neg h10]
    by_cases h6 : c ≥ 6
    · rw [if_pos h6]
      simp [lockDuration, h10, h6]
      omega
    · rw [if_neg h6]
      by_cases h3 : c ≥ 3
      · rw [if_pos h3]
        simp [lockDuration, h10, h6, h3]
      · rw [if_neg h3]
        simp [lockDuration, h10, h6, h3]

theorem lockDuration_mono (a b : Nat) (hab : a ≤ b) :
    lockDuration a ≤ lockDuration b := by
  unfold lockDuration
  split_ifs <;> first | rfl | omega | norm_num [minute, hour, second]

theorem lockDuration_values (count : Nat) :
    (10 ≤ count → lockDuration count = hour) ∧
    (6 ≤ count → count < 10 → lockDuration count = 10 * minute) ∧
    (3 ≤ count → count < 6 → lockDuration count = minute) ∧
    (count < 3 → lockDuration count = 0) := by
  unfold lockDuration
  refine ⟨fun h => by rw [if_pos h], fun h h2 => ?_, fun h h2 => ?_, fun h => ?_⟩
  · rw [if_neg (by omega), if_pos (by omega)]
  · rw [if_neg (by omega), if_neg (by omega), if_pos (by omega)]
  · rw [if_neg (by omega), if_neg (by omega), if_neg (by omega)]

theorem three_failures_block (t1 t2 t3 tq : Int)
    (h1 : t2 - t1 ≤ 15 * minute) (h2 : t3 - t2 ≤ 15 * minute)
    (h3 : t3 ≤ tq) (h4 : tq < t3 + minute) :
    afterFailures [t1, t2, t3] = some ⟨3, t3, t3 + minute⟩ ∧
    IsBlocked (afterFailures [t1, t2, t3]) tq = (true, t3 + minute - tq) ∧
    t3 + minute - tq ≤ minute := by
  have e1 : RecordFailedAttempt none t1 = (⟨1, t1, 0⟩, false, 0) := recordFailed_none t1
  have e2 : RecordFailedAttempt (some ⟨1, t1, 0⟩) t2 = (⟨2, t2, 0⟩, false, 0) :=
    recordFailed_small ⟨1, t1, 0⟩ t2 h1 (by norm_num)
  have e3 : RecordFailedAttempt (some ⟨2, t2, 0⟩) t3 = (⟨3, t3, t3 + minute⟩, true, minute) :=
    recordFailed_third ⟨2, t2, 0⟩ t3 h2 rfl
  have hall : afterFailures [t1, t2, t3] = some ⟨3, t3, t3 + minute⟩ := by
    simp only [afterFailures, List.foldl]
    rw [e1]
    dsimp only
    rw [e2]
    dsimp only
    rw [e3]
  refine ⟨hall, ?_, by omega⟩
  rw [hall]
  simp only [IsBlocked]
  rw [if_pos (by omega)]

/-- Claim C3 (confirmed): a failure recorded after a gap of more than
15 minutes counts as attempt 1; the lockout duration returned and
stored by RecordFailedAttempt is the monotone step function of the
post-increment count (at least 3 gives 1 minute, at least 6 gives 10
minutes, at least 10 gives 1 hour, below 3 no lockout and the stored
expiry is untouched); and after exactly three failures within the
window IsBlocked reports blocked with a remaining duration of at most
1 minute. -/
theorem C3_rate_limiter :
    (∀ (r : AttemptRecord) (now : Int), now - r.LastAttempt > 15 * minute →
        ((RecordFailedAttempt (some r) now).1).Count = 1) ∧
    (∀ (record : Option AttemptRecord) (now : Int),
        (RecordFailedAttempt record now).2.2 =
          lockDuration ((RecordFailedAttempt record now).1).Count ∧
        (3 ≤ ((RecordFailedAttempt record now).1).Count →
          (RecordFailedAttempt record now).2.1 = true ∧
          ((RecordFailedAttempt record now).1).LockedUntil =
            now + lockDuration ((RecordFailedAttempt record now).1).Count) ∧
        (((RecordFailedAttempt record now).1).Count < 3 →
          (RecordFailedAttempt record now).2.1 = false ∧
          ((RecordFailedAttempt record now).1).LockedUntil =
            (record.getD ⟨0, 0, 0⟩).LockedUntil)) ∧
    (∀ a b : Nat, a ≤ b → lockDuration a ≤ lockDuration b) ∧
    (∀ count : Nat,
        (10 ≤ count → lockDuration count = hour) ∧
        (6 ≤ count → count < 10 → lockDuration count = 10 * minute) ∧
        (3 ≤ count → count < 6 → lockDuration count = minute) ∧
        (count < 3 → lockDuration count = 0)) ∧
    (∀ t1 t2 t3 tq : Int,
        t2 - t1 ≤ 15 * minute → t3 - t2 ≤ 15 * minute →
        t3 ≤ tq → tq < t3 + minute →
        afterFailures [t1, t2, t3] = some ⟨3, t3, t3 + minute⟩ ∧
        IsBlocked (afterFailures [t1, t2, t3]) tq = (true, t3 + minute - tq) ∧
        t3 + minute - tq ≤ minute) :=
  ⟨fun r now h => recordFailed_reset r now h,
   fun record now => recordFailed_lock record now,
   fun a b hab => lockDuration_mono a b hab,
   fun count => lockDuration_values count,
   fun t1 t2 t3 tq h1 h2 h3 h4 => three_failures_block t1 t2 t3 tq h1 h2 h3 h4⟩

/-- Witness for C3: three immediate failures lock the client out for
exactly one minute. -/
theorem C3_rate_limiter_witness :
    afterFailures [0, 0, 0] = some ⟨3, 0, 0 + minute⟩ ∧
    IsBlocked (afterFailures [0, 0, 0]) 0 = (true, 0 + minute - 0) := by
  have h := C3_rate_limiter.2.2.2.2 0 0 0 0 (by norm_num [minute, second])
    (by norm_num [minute, second]) le_rfl (by norm_num [minute, second])
  exact ⟨h.1, h.2.1⟩

/-- Claim C4, counterexample: logout does not remove the session from
the store — the logout handler only clears the client cookie — so
immediately after create followed by logout the token still validates
as true, where the claim requires false. -/
theorem C4_counterexample :
    (ValidateSession (logoutSessionStoreEffect (CreateSession [] "tok" 0)) "tok" 0).1
      = true := by decide

/-- Claim C4 (amended): a token validates true immediately after
create and false once its 24-hour expiry has strictly passed; the
logout handler leaves the session store unchanged, so logging out
does not invalidate the token server-side; a token actually removed
from the store (as the lazy expiry deletion or the sweep does) or
never present validates false — and validation is a total function,
returning false rather than raising in every invalid case. -/
theorem C4_sessions (sessions : SessionMap) (token : String) (now tv : Int) :
    (tv ≤ now + 24 * hour →
      (ValidateSession (CreateSession sessions token now) token tv).1 = true) ∧
    (tv > now + 24 * hour →
      (ValidateSession (CreateSession sessions token now) token tv).1 = false) ∧
    logoutSessionStoreEffect sessions = sessions ∧
    (ValidateSession (sessionsErase sessions token) token tv).1 = false ∧
    (sessionLookup sessions token = none →
      (ValidateSession sessions token tv).1 = false) := by
  have hl : sessionLookup (CreateSession sessions token now) token
      = some (now + 24 * hour) := by
    simp [CreateSession, sessionLookup]
  refine ⟨fun h => ?_, fun h => ?_, rfl, ?_, fun h => ?_⟩
  · simp only [ValidateSession, hl]
    rw [if_neg (by omega)]
  · simp only [ValidateSession, hl]
    rw [if_pos (by omega)]
  · simp only [ValidateSession, sessionLookup_erase]
  · simp [ValidateSession, h]

/-- Witness for C4: a fresh token validates at creation time and
fails one nanosecond past its expiry. -/
theorem C4_sessions_witness :
    (ValidateSession (CreateSession [] "t" 0) "t" 0).1 = true ∧
    (ValidateSession (CreateSession [] "t" 0) "t" (24 * hour + 1)).1 = false :=
  ⟨(C4_sessions [] "t" 0 0).1 (by norm_num [hour, minute, second]),
   (C4_sessions [] "t" 0 (24 * hour + 1)).2.1 (by norm_num [hour, minute, second])⟩

end Snakeflex
